import Mathlib

/-!
Shallow embedding of the OptiRead action orchestrator (the `App` component):
the session state, the user-intent handlers, the asynchronous completion
handlers, and a small-step event system tying them together.

Modelling conventions:
* React `useState` fields become fields of `SessionState`; the `useRef`
  cancellation flag becomes the `isCancelled` field.  A handler is a pure
  function `SessionState → SessionState × List Effect`, reading the current
  state at the time it runs; calls to external collaborators (speech
  synthesis/recognition, the remote intelligence service, the live service)
  become `Effect` values in dispatch order.
* `captureFrame` returns an `Option` of the compressed still-image encoding;
  its DOM internals are not embeddable, so each handler takes the capture
  result as a parameter (`none` models "no decodable frame").
* Asynchronous continuations (the part of `processAndSpeak` after `await`,
  the live `onClose` callback, the `catch` of `liveService.start`, the
  `setTimeout` that clears the cancellation flag) are separate atomic steps
  of the event system, applied to the state current at the time they fire.
* Closure capture: the async body of `processAndSpeak` is a `useCallback`
  closure, so the `language.voice`, `speechSpeed` and `currentAction` it
  mentions are render constants fixed when the call was dispatched — later
  state updates are invisible to the already-running invocation.  These
  dispatch-time values travel with the in-flight call as a `Continuation`
  record.  Only `isCancelledRef.current` is a live read of a shared ref,
  so it is read from the completion-time state.
-/

namespace OptiRead

/-- A supported synthetic voice (the `voice` union type in `types.ts`). -/
inductive Voice
  | Kore
  | Puck
  | Charon
  | Zephyr
  | Fenrir
deriving DecidableEq, Repr

/-- `LanguageOption` from `types.ts`. -/
structure LanguageOption where
  code : String
  name : String
  voice : Voice
deriving DecidableEq, Repr

/-- `RememberedPerson` from `types.ts`. -/
structure RememberedPerson where
  name : String
  imageBase64 : String
deriving DecidableEq, Repr

/-- The fixed language catalog from `constants.ts`. -/
def LANGUAGES : List LanguageOption :=
  [ { code := "en-US", name := "English (US)", voice := .Zephyr },
    { code := "en-GB", name := "English (UK)", voice := .Puck },
    { code := "es-ES", name := "Spanish", voice := .Charon },
    { code := "hi-IN", name := "Hindi", voice := .Kore },
    { code := "kn-IN", name := "Kannada", voice := .Fenrir },
    { code := "te-IN", name := "Telugu", voice := .Zephyr } ]

/-- A call into the remote intelligence capability (`geminiService`). -/
inductive RemoteCall
  | describeScene (imageBase64 : String) (languageName : String)
  | describePerson (imageBase64 : String) (people : List RememberedPerson)
      (languageName : String)
  | askWithContext (imageBase64 : Option String) (question : String)
      (languageName : String)
deriving DecidableEq, Repr

/-- The closure environment of a dispatched `processAndSpeak` invocation:
its `actionType` argument together with the render-constant values of
`language.voice`, `speechSpeed` and `currentAction` captured by the
`useCallback` closure at dispatch time (the running invocation never sees
later state updates to these). -/
structure Continuation where
  actionType : String
  voice : Voice
  rate : ℚ
  closureAction : Option String
deriving DecidableEq, Repr

/-- An externally observable side effect issued by a handler, in order.
`dispatch` carries both the remote call's payload and the closure
environment of the continuation awaiting it. -/
inductive Effect
  | speak (text : String) (voice : Voice) (rate : ℚ)
  | stopSpeech
  | stopListening
  | startListening
  | liveStart (voice : Voice)
  | liveStop
  | dispatch (call : RemoteCall) (k : Continuation)
  | scheduleCancelClear
deriving DecidableEq, Repr

/-- The `App` component's state: one field per `useState` hook, plus the
`isCancelledRef` ref and the `useSpeechRecognition` hook's outputs. -/
structure SessionState where
  isOnline : Bool
  speechSpeed : ℚ
  language : LanguageOption
  isProcessing : Bool
  currentAction : Option String
  rememberedPeople : List RememberedPerson
  isLive : Bool
  showRememberModal : Bool
  frameToRemember : Option String
  isCancelled : Bool
  isListening : Bool
  transcript : String
deriving DecidableEq, Repr

/-- The fixed apology spoken when a remote call rejects. -/
def errorMessage : String := "Sorry, I encountered an error. Please try again."

/-- JavaScript `String.prototype.trim()`: drops leading and trailing
whitespace.  (Defined over the character list so that it reduces in the
kernel, unlike core's `String.trim`.) -/
def jsTrim (s : String) : String :=
  ⟨((s.data.dropWhile Char.isWhitespace).reverse.dropWhile Char.isWhitespace).reverse⟩

/-- `handleStop`: sets the cancellation flag, stops speech, stops recognition
if listening, stops the live session if live, dismisses the remember dialog,
clears the processing flag and current action, and schedules the 100ms
timeout that clears the cancellation flag again. -/
def handleStop (st : SessionState) : SessionState × List Effect :=
  ({ st with
      isCancelled := true,
      isLive := false,
      showRememberModal := false,
      isProcessing := false,
      currentAction := none },
   [Effect.stopSpeech]
     ++ (if st.isListening then [Effect.stopListening] else [])
     ++ (if st.isLive then [Effect.liveStop] else [])
     ++ [Effect.scheduleCancelClear])

/-- The synchronous prefix of `processAndSpeak`: clears the cancellation
flag, sets the processing flag and records the action type.  The remote call
itself is emitted as a `dispatch` effect by the caller. -/
def processAndSpeakStart (st : SessionState) (actionType : String) : SessionState :=
  { st with isCancelled := false, isProcessing := true, currentAction := some actionType }

/-- The continuation of `processAndSpeak` once the dispatched remote call
settles (`outcome` is the promise's resolution or rejection), with `k` the
closure environment captured at dispatch time.  `isCancelledRef.current` is
a live ref read, taken from the completion-time state: if the flag is set,
both the `try` and `catch` bodies return before speaking; otherwise the
result text (on success) or the fixed apology (on failure) is spoken with
the closure-captured voice and rate.  The `finally` block compares the
closure-captured `currentAction` (the value at the render that dispatched
the call, not the completion-time state) with `actionType`, and clears the
processing flag and current action exactly when they are equal. -/
def processComplete (st : SessionState) (k : Continuation)
    (outcome : Except String String) : SessionState × List Effect :=
  let effs : List Effect :=
    if st.isCancelled then []
    else
      match outcome with
      | .ok t => [Effect.speak t k.voice k.rate]
      | .error _ => [Effect.speak errorMessage k.voice k.rate]
  let st' :=
    if k.closureAction = some k.actionType then
      { st with isProcessing := false, currentAction := none }
    else st
  (st', effs)

/-- `handleDescribe`, with `frame` the result `captureFrame()` would return.
A second press while `describe` is the current action is the toggle-stop
path; otherwise the press is ignored while processing; otherwise, when a
frame is available, a status cue is spoken and the scene-description call is
dispatched. -/
def handleDescribe (st : SessionState) (frame : Option String) :
    SessionState × List Effect :=
  if st.currentAction = some "describe" then handleStop st
  else if st.isProcessing then (st, [])
  else
    match frame with
    | none => (st, [])
    | some f =>
        (processAndSpeakStart st "describe",
         [Effect.speak "Analyzing the scene..." st.language.voice st.speechSpeed,
          Effect.dispatch (.describeScene f st.language.name)
            { actionType := "describe", voice := st.language.voice,
              rate := st.speechSpeed, closureAction := st.currentAction }])

/-- `handlePerson` (identify-person intent), symmetric to `handleDescribe`;
the dispatched call carries the full remembered-people collection. -/
def handlePerson (st : SessionState) (frame : Option String) :
    SessionState × List Effect :=
  if st.currentAction = some "person" then handleStop st
  else if st.isProcessing then (st, [])
  else
    match frame with
    | none => (st, [])
    | some f =>
        (processAndSpeakStart st "person",
         [Effect.speak "Looking for a person..." st.language.voice st.speechSpeed,
          Effect.dispatch (.describePerson f st.rememberedPeople st.language.name)
            { actionType := "person", voice := st.language.voice,
              rate := st.speechSpeed, closureAction := st.currentAction }])

/-- `handleRemember`: a no-op while processing or when no frame is
available; otherwise stores the captured frame as pending and opens the
remember dialog. -/
def handleRemember (st : SessionState) (frame : Option String) :
    SessionState × List Effect :=
  if st.isProcessing then (st, [])
  else
    match frame with
    | none => (st, [])
    | some f => ({ st with frameToRemember := some f, showRememberModal := true }, [])

/-- `handleSavePerson`: when the whitespace-trimmed name is non-empty and a
pending frame exists, appends the `{name, frame}` record and speaks a
confirmation referencing the trimmed name; in every case the dialog closes
and the pending frame is cleared. -/
def handleSavePerson (st : SessionState) (name : String) :
    SessionState × List Effect :=
  let saved : SessionState × List Effect :=
    match st.frameToRemember with
    | some f =>
        if jsTrim name = "" then (st, [])
        else
          ({ st with rememberedPeople :=
              st.rememberedPeople ++ [{ name := jsTrim name, imageBase64 := f }] },
           [Effect.speak ("I'll remember " ++ jsTrim name ++ ".")
              st.language.voice st.speechSpeed])
    | none => (st, [])
  ({ saved.1 with showRememberModal := false, frameToRemember := none }, saved.2)

/-- `handleAsk`: toggle-stop when `ask` is the current action; stops
recognition when listening; otherwise, when not processing, speaks the
listening cue and starts recognition. -/
def handleAsk (st : SessionState) : SessionState × List Effect :=
  if st.currentAction = some "ask" then handleStop st
  else if st.isListening then (st, [Effect.stopListening])
  else if st.isProcessing then (st, [])
  else
    (st, [Effect.speak "Listening..." st.language.voice st.speechSpeed,
          Effect.startListening])

/-- The recognition session ends, delivering the final transcript `t`:
models the `useSpeechRecognition` hook clearing `isListening` and exposing
`transcript`, immediately followed by the `[isListening, transcript]`
effect, which on a non-empty transcript speaks the question cue and
dispatches the ask call with a fresh capture result `frame` (best effort:
the call proceeds even when `frame` is `none`). -/
def recognitionEnd (st : SessionState) (t : String) (frame : Option String) :
    SessionState × List Effect :=
  let st1 := { st with isListening := false, transcript := t }
  if t = "" then (st1, [])
  else
    (processAndSpeakStart st1 "ask",
     [Effect.speak ("Asking: \"" ++ t ++ "\"") st1.language.voice st1.speechSpeed,
      Effect.dispatch (.askWithContext frame t st1.language.name)
        { actionType := "ask", voice := st1.language.voice,
          rate := st1.speechSpeed, closureAction := st1.currentAction }])

/-- `handleLive`: when live, stops the live session and clears the live flag
and current action; when not live, first forces a global stop, then marks
`live` active and asks the live service to start a session for the current
voice. -/
def handleLive (st : SessionState) : SessionState × List Effect :=
  if st.isLive then
    ({ st with isLive := false, currentAction := none }, [Effect.liveStop])
  else
    let stopped := handleStop st
    ({ stopped.1 with currentAction := some "live", isLive := true },
     stopped.2 ++ [Effect.liveStart st.language.voice])

/-- The `catch` branch of `handleLive` when `liveService.start` rejects:
clears the live flag and current action and speaks the fixed error cue. -/
def liveStartFailed (st : SessionState) : SessionState × List Effect :=
  ({ st with isLive := false, currentAction := none },
   [Effect.speak "Could not start live mode." st.language.voice st.speechSpeed])

/-- The `onClose` callback passed to `liveService.start`: clears the live
flag and the current action. -/
def liveOnClose (st : SessionState) : SessionState × List Effect :=
  ({ st with isLive := false, currentAction := none }, [])

/-- The `Header`'s language selector (`setLanguage`). -/
def setLanguage (st : SessionState) (l : LanguageOption) : SessionState :=
  { st with language := l }

/-- The `Header`'s speed slider (`setSpeechSpeed`). -/
def setSpeechSpeed (st : SessionState) (r : ℚ) : SessionState :=
  { st with speechSpeed := r }

/-- The tick times of the live-mode `setInterval(…, period)` for a live
interval that is torn down `dur` milliseconds after it starts: the interval
fires at every positive multiple of `period` strictly before teardown, and
`clearInterval` prevents any later tick. -/
def feedTicks (period dur : Nat) : List Nat :=
  (List.range dur).filter (fun t => (t != 0) && (t % period == 0))

/-- The frames actually pushed by the live frame feed: at each tick the
interval body calls `captureFrame()` and pushes the frame through
`liveService.sendVideoFrame` exactly when a frame was obtained; a tick whose
capture yields nothing pushes nothing. -/
def livePushes (capture : Nat → Option String) (period dur : Nat) :
    List (Nat × String) :=
  (feedTicks period dur).filterMap (fun t => (capture t).map (fun f => (t, f)))

/-- The component's initial state: the hooks' initial values (`LANGUAGES[0]`,
speed `1.0`, everything else off/empty). -/
def initialState : SessionState :=
  { isOnline := true,
    speechSpeed := 1,
    language := { code := "en-US", name := "English (US)", voice := .Zephyr },
    isProcessing := false,
    currentAction := none,
    rememberedPeople := [],
    isLive := false,
    showRememberModal := false,
    frameToRemember := none,
    isCancelled := false,
    isListening := false,
    transcript := "" }

/-- A session state together with the runtime bookkeeping needed to say
which asynchronous continuations may still fire: the closure environments
of in-flight single-shot remote calls, the number of pending
cancellation-flag timeouts, whether a `liveService.start` call is pending,
and whether a live session is open (so its `onClose` may fire). -/
structure World where
  st : SessionState
  pending : List Continuation
  timers : Nat
  liveStarting : Bool
  liveOpen : Bool
deriving DecidableEq, Repr

/-- Bookkeeping interpretation of an effect: dispatching a remote call adds
an in-flight call (with its closure environment), scheduling the stop
timeout adds a timer, starting the live session marks it pending, and
stopping the live session retires both the pending start and the open
session. -/
def applyEffect (w : World) : Effect → World
  | .dispatch _ k => { w with pending := w.pending ++ [k] }
  | .scheduleCancelClear => { w with timers := w.timers + 1 }
  | .liveStart _ => { w with liveStarting := true }
  | .liveStop => { w with liveStarting := false, liveOpen := false }
  | _ => w

/-- Fold `applyEffect` over a handler's effect list. -/
def applyEffects (w : World) (effs : List Effect) : World :=
  effs.foldl applyEffect w

/-- Run a `SessionState` handler inside a `World`. -/
def liftHandler (w : World) (h : SessionState → SessionState × List Effect) :
    World × List Effect :=
  let r := h w.st
  (applyEffects { w with st := r.1 } r.2, r.2)

/-- An event of the session: a user intent (with the capture result the DOM
would supply where the handler captures a frame), or an asynchronous
continuation (recognition end, stop-timeout fire, live start settling, live
session close, remote-call completion). -/
inductive Event
  | describeIntent (frame : Option String)
  | personIntent (frame : Option String)
  | rememberIntent (frame : Option String)
  | saveIntent (name : String)
  | closeModalIntent
  | askIntent
  | recogEnd (t : String) (frame : Option String)
  | stopIntent
  | liveIntent
  | setLang (l : LanguageOption)
  | setSpeed (r : ℚ)
  | timerFire
  | liveStartOk
  | liveStartFail
  | liveClose
  | complete (i : Nat) (outcome : Except String String)
deriving Repr

/-- One step of the session: `none` when the event cannot occur in `w`
(e.g. a completion with no matching in-flight call); otherwise the successor
world and the effects of the step.  User intents are always deliverable
(per the design, the UI rejects new intents only through the handlers' own
`isProcessing`/toggle guards; the stop intent is always accepted), the
save/close intents require the dialog to be open, and each asynchronous
continuation requires its trigger to be outstanding. -/
def step (w : World) : Event → Option (World × List Effect)
  | .describeIntent f => some (liftHandler w (fun s => handleDescribe s f))
  | .personIntent f => some (liftHandler w (fun s => handlePerson s f))
  | .rememberIntent f => some (liftHandler w (fun s => handleRemember s f))
  | .saveIntent n =>
      if w.st.showRememberModal then
        some (liftHandler w (fun s => handleSavePerson s n))
      else none
  | .closeModalIntent =>
      if w.st.showRememberModal then
        some ({ w with st := { w.st with showRememberModal := false } }, [])
      else none
  | .askIntent => some (liftHandler w handleAsk)
  | .recogEnd t f =>
      if w.st.isListening then
        some (liftHandler w (fun s => recognitionEnd s t f))
      else none
  | .stopIntent => some (liftHandler w handleStop)
  | .liveIntent => some (liftHandler w handleLive)
  | .setLang l => some ({ w with st := setLanguage w.st l }, [])
  | .setSpeed r => some ({ w with st := setSpeechSpeed w.st r }, [])
  | .timerFire =>
      if w.timers > 0 then
        some ({ w with
                  st := { w.st with isCancelled := false },
                  timers := w.timers - 1 }, [])
      else none
  | .liveStartOk =>
      if w.liveStarting then
        some ({ w with liveStarting := false, liveOpen := true }, [])
      else none
  | .liveStartFail =>
      if w.liveStarting then
        some (liftHandler { w with liveStarting := false } liveStartFailed)
      else none
  | .liveClose =>
      if w.liveOpen then
        some (liftHandler { w with liveOpen := false } liveOnClose)
      else none
  | .complete i outcome =>
      match w.pending.get? i with
      | some k =>
          let r := processComplete w.st k outcome
          some (applyEffects
                  { w with st := r.1, pending := w.pending.eraseIdx i } r.2,
                r.2)
      | none => none

/-- The initial world: initial state, nothing in flight. -/
def initialWorld : World :=
  { st := initialState, pending := [], timers := 0,
    liveStarting := false, liveOpen := false }

/-- Run a sequence of events from a world; `none` when some event in the
sequence cannot occur. -/
def runW (w : World) : List Event → Option World
  | [] => some w
  | e :: es =>
      match step w e with
      | some r => runW r.1 es
      | none => none

/-- A state with a describe call processing (as set up by `handleDescribe`). -/
def describeActiveState : SessionState :=
  { initialState with isProcessing := true, currentAction := some "describe" }

/-- A state with live mode active (as set up by `handleLive`). -/
def liveActiveState : SessionState :=
  { initialState with isLive := true, currentAction := some "live" }

/-- A state with the remember dialog open over a pending frame (as set up by
`handleRemember`). -/
def pendingFrameState : SessionState :=
  { initialState with showRememberModal := true, frameToRemember := some "img" }

/-- A world with a describe call in flight, dispatched from Idle under the
default settings (so its closure captured voice Zephyr, rate 1 and a null
`currentAction`). -/
def inFlightWorld : World :=
  { initialWorld with
      st := describeActiveState,
      pending := [{ actionType := "describe", voice := .Zephyr, rate := 1,
                    closureAction := none }] }

/-- Events: dispatch a describe call, global stop, then the stop's 100ms
guard timeout fires before the remote call settles. -/
def stopThenTimeoutTrace : List Event :=
  [Event.describeIntent (some "img"), Event.stopIntent, Event.timerFire]

/-- The world reached by `stopThenTimeoutTrace`. -/
def stopThenTimeoutWorld : World :=
  (runW initialWorld stopThenTimeoutTrace).getD initialWorld

/-- Events: start live mode, press describe while live (which dispatches a
describe call, since the handlers only guard on `isProcessing` and the
toggle), then press live again to stop live mode. -/
def liveThenDescribeTrace : List Event :=
  [Event.liveIntent, Event.describeIntent (some "img"), Event.liveIntent]

/-- The world reached by `liveThenDescribeTrace`. -/
def liveThenDescribeWorld : World :=
  (runW initialWorld liveThenDescribeTrace).getD initialWorld

/-- The world reached by a single describe dispatch from the initial (Idle)
state: a describe call is in flight, its closure having captured
`currentAction = null`. -/
def dispatchedWorld : World :=
  (runW initialWorld [Event.describeIntent (some "img")]).getD initialWorld

/-- Events: dispatch a describe call under the default settings, then
change the language to Spanish (voice Charon) and the speed to 2 while the
call is in flight. -/
def settingsChangeTrace : List Event :=
  [Event.describeIntent (some "img"),
   Event.setLang { code := "es-ES", name := "Spanish", voice := .Charon },
   Event.setSpeed 2]

/-- The world reached by `settingsChangeTrace`. -/
def settingsChangeWorld : World :=
  (runW initialWorld settingsChangeTrace).getD initialWorld

/-- Events: start live mode, the streaming session is established, then
press describe while live (dispatching a describe call, so the processing
flag is set while the session is open). -/
def liveCloseRaceTrace : List Event :=
  [Event.liveIntent, Event.liveStartOk, Event.describeIntent (some "img")]

/-- The world reached by `liveCloseRaceTrace`. -/
def liveCloseRaceWorld : World :=
  (runW initialWorld liveCloseRaceTrace).getD initialWorld

/-- Membership in the live feed's tick list. -/
theorem mem_feedTicks (period dur t : Nat) :
    t ∈ feedTicks period dur ↔ 0 < t ∧ t % period = 0 ∧ t < dur := by
  simp only [feedTicks, List.mem_filter, List.mem_range, Bool.and_eq_true,
    bne_iff_ne, ne_eq, beq_iff_eq, Nat.pos_iff_ne_zero]
  tauto

/-- Membership in the live feed's push list. -/
theorem mem_livePushes (capture : Nat → Option String) (period dur t : Nat)
    (f : String) :
    (t, f) ∈ livePushes capture period dur ↔
      t ∈ feedTicks period dur ∧ capture t = some f := by
  simp only [livePushes, List.mem_filterMap, Option.map_eq_some',
    Prod.mk.injEq]
  constructor
  · rintro ⟨a, ha, x, hx, rfl, rfl⟩
    exact ⟨ha, hx⟩
  · rintro ⟨ht, hc⟩
    exact ⟨t, ht, f, hc, rfl, rfl⟩

/-- C1 (violation): a describe call dispatched from Idle and resolving
successfully with no cancellation speaks its result text, but the
processing flag and current action are NOT cleared: the `finally` guard
compares the dispatch-time closure value of `currentAction` (null at a
fresh dispatch, since the toggle branch rules out a matching action) with
`actionType`, so it never fires and the orchestrator stays stuck in
Processing('describe') after the completion; the failed outcome likewise
speaks the apology and leaves the state stuck. -/
theorem completion_never_clears :
    runW initialWorld [Event.describeIntent (some "img")] = some dispatchedWorld
    ∧ (step dispatchedWorld (Event.complete 0 (Except.ok "A cat."))).map
        (fun p => p.2)
      = some [Effect.speak "A cat." Voice.Zephyr 1]
    ∧ (step dispatchedWorld (Event.complete 0 (Except.ok "A cat."))).map
        (fun p => (p.1.st.isProcessing, p.1.st.currentAction))
      = some (true, some "describe")
    ∧ (step dispatchedWorld (Event.complete 0 (Except.error "network"))).map
        (fun p => p.2)
      = some [Effect.speak errorMessage Voice.Zephyr 1]
    ∧ (step dispatchedWorld (Event.complete 0 (Except.error "network"))).map
        (fun p => (p.1.st.isProcessing, p.1.st.currentAction))
      = some (true, some "describe") := by
  exact ⟨rfl, rfl, rfl, rfl, rfl⟩

/-- C2 counterexample: after describe is dispatched and a global stop is
processed, a completion that settles after the stop's 100ms guard timeout
has cleared the cancellation flag DOES produce spoken output (the result
text is spoken even though the action was stopped). -/
theorem stop_then_late_completion_speaks :
    runW initialWorld stopThenTimeoutTrace = some stopThenTimeoutWorld
    ∧ (step stopThenTimeoutWorld (Event.complete 0 (Except.ok "A cat."))).map
        (fun r => r.2)
      = some [Effect.speak "A cat." Voice.Zephyr 1] := by
  exact ⟨rfl, rfl⟩

/-- C2 (amended): a completion that settles while the cancellation flag is
still set produces no spoken output, and leaves the state unchanged
whenever the call's clear-guard does not fire — the guard compares the
dispatch-time closure value of `currentAction` with the call's action type,
which never match for a dispatched call (the toggle branch rules a matching
action out at dispatch), in particular after a global stop. -/
theorem cancelled_completion_silent (st : SessionState) (k : Continuation)
    (outcome : Except String String) (h : st.isCancelled = true) :
    (processComplete st k outcome).2 = []
    ∧ (k.closureAction ≠ some k.actionType →
        (processComplete st k outcome).1 = st) := by
  constructor
  · simp [processComplete, h]
  · intro hm
    simp [processComplete, hm]

/-- Witness for the amended C2 at a concrete cancelled completion (the
continuation of a describe call dispatched from Idle). -/
theorem cancelled_completion_silent_witness :
    (processComplete { initialState with isCancelled := true }
        { actionType := "describe", voice := .Zephyr, rate := 1,
          closureAction := none }
        (Except.ok "A cat.")).2 = []
    ∧ (processComplete { initialState with isCancelled := true }
        { actionType := "describe", voice := .Zephyr, rate := 1,
          closureAction := none }
        (Except.ok "A cat.")).1
      = { initialState with isCancelled := true } := by
  have h := cancelled_completion_silent { initialState with isCancelled := true }
    { actionType := "describe", voice := .Zephyr, rate := 1,
      closureAction := none }
    (Except.ok "A cat.") rfl
  exact ⟨h.1, h.2 (by decide)⟩

/-- C3 counterexample: with live mode active, a second live intent is not
the same operation as the global stop intent — the resulting state and
effect list differ (global stop sets the cancellation flag and stops
speech; the live toggle does neither). -/
theorem live_toggle_ne_stop :
    handleLive liveActiveState ≠ handleStop liveActiveState := by
  decide

/-- C3 (amended): for Describe, IdentifyPerson and Ask a second trigger
while that action is active is exactly the global stop (same state, same
effects); for Live, a second trigger stops the live session and clears the
live flag and current action, but unlike the global stop it leaves the
cancellation flag, the processing flag and the dialog untouched and does not
stop speech. -/
theorem second_trigger_toggle (st : SessionState) (frame : Option String) :
    (st.currentAction = some "describe" → handleDescribe st frame = handleStop st)
    ∧ (st.currentAction = some "person" → handlePerson st frame = handleStop st)
    ∧ (st.currentAction = some "ask" → handleAsk st = handleStop st)
    ∧ (st.isLive = true →
        handleLive st
          = ({ st with isLive := false, currentAction := none }, [Effect.liveStop])
        ∧ (handleLive st).1.isCancelled = st.isCancelled
        ∧ (handleLive st).1.isProcessing = st.isProcessing
        ∧ (handleLive st).1.showRememberModal = st.showRememberModal
        ∧ Effect.stopSpeech ∉ (handleLive st).2) := by
  refine ⟨fun h => ?_, fun h => ?_, fun h => ?_, fun h => ?_⟩
  · simp [handleDescribe, h]
  · simp [handlePerson, h]
  · simp [handleAsk, h]
  · refine ⟨?_, ?_, ?_, ?_, ?_⟩ <;> simp [handleLive, h]

/-- Witness for the amended C3 at concrete active states. -/
theorem second_trigger_toggle_witness :
    handleDescribe describeActiveState none = handleStop describeActiveState
    ∧ handleLive liveActiveState
        = ({ liveActiveState with isLive := false, currentAction := none },
           [Effect.liveStop]) := by
  exact ⟨(second_trigger_toggle describeActiveState none).1 rfl,
         ((second_trigger_toggle liveActiveState none).2.2.2 rfl).1⟩

set_option maxRecDepth 100000 in
/-- C4: the live frame feed attempts a capture at every 500ms tick while
live mode is active and pushes exactly the frames obtained: a 1700ms live
interval has exactly the ticks 500, 1000 and 1500; every pushed frame comes
from a tick strictly before teardown with a successful capture; a tick whose
capture yields nothing pushes nothing; and every successful capture at a
tick is pushed. -/
theorem live_feed_ticks (capture : Nat → Option String) (period dur t : Nat)
    (f : String) :
    feedTicks 500 1700 = [500, 1000, 1500]
    ∧ ((t, f) ∈ livePushes capture period dur →
        capture t = some f ∧ 0 < t ∧ t % period = 0 ∧ t < dur)
    ∧ (capture t = none → (t, f) ∉ livePushes capture period dur)
    ∧ (t ∈ feedTicks period dur → capture t = some f →
        (t, f) ∈ livePushes capture period dur) := by
  refine ⟨by decide, fun hm => ?_, fun hc hm => ?_, fun ht hc => ?_⟩
  · obtain ⟨ht, hc⟩ := (mem_livePushes capture period dur t f).1 hm
    obtain ⟨h1, h2, h3⟩ := (mem_feedTicks period dur t).1 ht
    exact ⟨hc, h1, h2, h3⟩
  · obtain ⟨-, hc'⟩ := (mem_livePushes capture period dur t f).1 hm
    simp [hc] at hc'
  · exact (mem_livePushes capture period dur t f).2 ⟨ht, hc⟩

/-- Witness for C4 at concrete feed parameters. -/
theorem live_feed_ticks_witness :
    feedTicks 500 1700 = [500, 1000, 1500]
    ∧ ((500 : Nat), "x") ∉ livePushes (fun _ => none) 500 1700 := by
  exact ⟨(live_feed_ticks (fun _ => none) 500 1700 500 "x").1,
         (live_feed_ticks (fun _ => none) 500 1700 500 "x").2.2.1 rfl⟩

/-- C5 counterexample: a describe call dispatched under the default
settings (voice Zephyr, rate 1) whose language and speed are changed to
Charon/2 while it is in flight speaks its result with the dispatch-time
Zephyr/1 — not with the changed settings, refuting the claim that the
result utterance uses the settings current at completion time. -/
theorem settings_change_not_used :
    runW initialWorld settingsChangeTrace = some settingsChangeWorld
    ∧ settingsChangeWorld.st.language.voice = Voice.Charon
    ∧ settingsChangeWorld.st.speechSpeed = 2
    ∧ (step settingsChangeWorld (Event.complete 0 (Except.ok "Hola"))).map
        (fun p => p.2)
      = some [Effect.speak "Hola" Voice.Zephyr 1]
    ∧ (step settingsChangeWorld (Event.complete 0 (Except.ok "Hola"))).map
        (fun p => p.2)
      ≠ some [Effect.speak "Hola" Voice.Charon 2] := by
  refine ⟨rfl, rfl, rfl, rfl, by decide⟩

/-- C5 (amended): the voice and rate of a completed call's result utterance
are the closure-captured dispatch-time values carried by the in-flight
call's continuation, regardless of the settings at completion time: however
the settings are changed to `l` and `r` while the call is in flight, the
result is spoken with the continuation's voice and rate. -/
theorem result_uses_dispatch_snapshot (w : World) (l : LanguageOption) (r : ℚ)
    (i : Nat) (k : Continuation) (t : String)
    (hp : w.pending[i]? = some k) (hc : w.st.isCancelled = false) :
    (step { w with st := setSpeechSpeed (setLanguage w.st l) r }
        (Event.complete i (Except.ok t))).map (fun p => p.2)
      = some [Effect.speak t k.voice k.rate] := by
  simp [step, setSpeechSpeed, setLanguage, hp, processComplete, hc]

/-- Witness for the amended C5: a describe call dispatched under the
default settings is spoken with Zephyr/1 even after switching to
Spanish/Charon at speed 2 while it was in flight. -/
theorem result_uses_dispatch_snapshot_witness :
    (step { inFlightWorld with
              st := setSpeechSpeed (setLanguage inFlightWorld.st
                { code := "es-ES", name := "Spanish", voice := .Charon }) 2 }
        (Event.complete 0 (Except.ok "Hola"))).map (fun p => p.2)
      = some [Effect.speak "Hola" Voice.Zephyr 1] := by
  exact result_uses_dispatch_snapshot inFlightWorld
    { code := "es-ES", name := "Spanish", voice := .Charon } 2 0
    { actionType := "describe", voice := .Zephyr, rate := 1,
      closureAction := none }
    "Hola" (by decide) rfl

/-- C6: when frame capture returns no frame, the describe, identify-person
and remember intents triggered from Idle are silently aborted: no state
change and no effects at all (no remote call, no status cue, no dialog, no
error). -/
theorem no_frame_silent_abort (st : SessionState)
    (h1 : st.isProcessing = false) (h2 : st.currentAction = none) :
    handleDescribe st none = (st, [])
    ∧ handlePerson st none = (st, [])
    ∧ handleRemember st none = (st, []) := by
  refine ⟨?_, ?_, ?_⟩ <;>
    simp [handleDescribe, handlePerson, handleRemember, h1, h2]

/-- Witness for C6 at the initial (Idle) state. -/
theorem no_frame_silent_abort_witness :
    handleDescribe initialState none = (initialState, [])
    ∧ handlePerson initialState none = (initialState, [])
    ∧ handleRemember initialState none = (initialState, []) := by
  exact no_frame_silent_abort initialState rfl rfl

/-- C7: saving in the remember dialog with a name whose trimmed form is
non-empty appends exactly one record with the trimmed name and the pending
frame and speaks a confirmation referencing the trimmed name; a name that
trims to empty appends nothing; and in every case the dialog closes and the
pending frame is discarded. -/
theorem save_person_spec (st : SessionState) (name f : String)
    (hf : st.frameToRemember = some f) :
    (jsTrim name ≠ "" →
        (handleSavePerson st name).1.rememberedPeople
            = st.rememberedPeople ++ [{ name := jsTrim name, imageBase64 := f }]
        ∧ (handleSavePerson st name).2
            = [Effect.speak ("I'll remember " ++ jsTrim name ++ ".")
                st.language.voice st.speechSpeed])
    ∧ (jsTrim name = "" →
        (handleSavePerson st name).1.rememberedPeople = st.rememberedPeople
        ∧ (handleSavePerson st name).2 = [])
    ∧ (handleSavePerson st name).1.showRememberModal = false
    ∧ (handleSavePerson st name).1.frameToRemember = none := by
  refine ⟨fun hn => ?_, fun hn => ?_, rfl, rfl⟩
  · simp [handleSavePerson, hf, hn]
  · simp [handleSavePerson, hf, hn]

/-- Witness for C7: saving "  Alice  " stores the name "Alice"; saving ""
or "   " stores nothing; the dialog closes. -/
theorem save_person_spec_witness :
    (handleSavePerson pendingFrameState "  Alice  ").1.rememberedPeople
        = [{ name := "Alice", imageBase64 := "img" }]
    ∧ (handleSavePerson pendingFrameState "   ").1.rememberedPeople = []
    ∧ (handleSavePerson pendingFrameState "").1.rememberedPeople = []
    ∧ (handleSavePerson pendingFrameState "  Alice  ").1.showRememberModal = false
    ∧ (handleSavePerson pendingFrameState "  Alice  ").1.frameToRemember = none := by
  have hA := save_person_spec pendingFrameState "  Alice  " "img" rfl
  have hS := save_person_spec pendingFrameState "   " "img" rfl
  have hE := save_person_spec pendingFrameState "" "img" rfl
  refine ⟨?_, ?_, ?_, hA.2.2.1, hA.2.2.2⟩
  · exact ((hA.1 (by decide)).1).trans (by decide)
  · exact (hS.2.1 (by decide)).1
  · exact (hE.2.1 rfl).1

/-- C8 counterexample: with live mode active and its session open, pressing
describe dispatches a single-shot call (setting the processing flag); if the
session then closes, the close callback clears the live flag and current
action, but the processing flag is left set — the state does not return to
Idle, refuting the claim's unconditional "whenever the session closes ...
returning to Idle". -/
theorem live_close_not_idle :
    runW initialWorld liveCloseRaceTrace = some liveCloseRaceWorld
    ∧ liveCloseRaceWorld.liveOpen = true
    ∧ liveCloseRaceWorld.st.isProcessing = true
    ∧ (step liveCloseRaceWorld Event.liveClose).map
        (fun p => (p.1.st.isLive, p.1.st.currentAction, p.1.st.isProcessing))
      = some (false, none, true) := by
  exact ⟨rfl, rfl, rfl, rfl⟩

/-- C8 (amended): starting live mode first forces a global stop (the
handler's result is the stop's state with the live flag and live action
added, and the stop's effects followed by the live-session start); if
session establishment fails, the fixed error message is spoken and the live
flag and current action are cleared; the session's close callback likewise
clears the live flag and current action.  The state is Idle after the
failure or close exactly when the processing flag is clear at that moment
— which the forced stop establishes unless a single-shot call was
dispatched while live mode was active. -/
theorem live_lifecycle (st : SessionState)
    (hl : st.isLive = false) (hp : st.isProcessing = false) :
    handleLive st
      = ({ (handleStop st).1 with currentAction := some "live", isLive := true },
         (handleStop st).2 ++ [Effect.liveStart st.language.voice])
    ∧ (liveStartFailed st).2
        = [Effect.speak "Could not start live mode." st.language.voice st.speechSpeed]
    ∧ (liveStartFailed st).1.isLive = false
    ∧ (liveStartFailed st).1.currentAction = none
    ∧ (liveStartFailed st).1.isProcessing = false
    ∧ (liveOnClose st).1.isLive = false
    ∧ (liveOnClose st).1.currentAction = none
    ∧ (liveOnClose st).1.isProcessing = false := by
  refine ⟨?_, rfl, rfl, rfl, hp, rfl, rfl, hp⟩
  simp [handleLive, hl]

/-- Witness for C8 at the initial state. -/
theorem live_lifecycle_witness :
    handleLive initialState
      = ({ (handleStop initialState).1 with
             currentAction := some "live", isLive := true },
         (handleStop initialState).2 ++ [Effect.liveStart Voice.Zephyr])
    ∧ (liveStartFailed initialState).1.isProcessing = false := by
  have h := live_lifecycle initialState rfl rfl
  exact ⟨h.1, h.2.2.2.2.1⟩

/-- C9 (violation): the claimed invariant `isProcessing = true →
currentAction ≠ none` fails in a reachable state: start live mode, press
describe while live (the handlers only guard on `isProcessing` and the
toggle, so a describe call is dispatched and `isProcessing` becomes true),
then press live again — the live toggle clears `currentAction` but not
`isProcessing`. -/
theorem processing_invariant_violation :
    runW initialWorld liveThenDescribeTrace = some liveThenDescribeWorld
    ∧ liveThenDescribeWorld.st.isProcessing = true
    ∧ liveThenDescribeWorld.st.currentAction = none := by
  exact ⟨rfl, rfl, rfl⟩

/-- C10: for every state and name, `handleSavePerson` changes only the
remembered-people collection (appending at most one record at the end), the
dialog-visibility flag and the pending-frame slot; every other field — and
every previously stored record, in order — is unchanged. -/
theorem save_person_frame_condition (st : SessionState) (name : String) :
    (handleSavePerson st name).1.currentAction = st.currentAction
    ∧ (handleSavePerson st name).1.isProcessing = st.isProcessing
    ∧ (handleSavePerson st name).1.isLive = st.isLive
    ∧ (handleSavePerson st name).1.language = st.language
    ∧ (handleSavePerson st name).1.speechSpeed = st.speechSpeed
    ∧ (handleSavePerson st name).1.isCancelled = st.isCancelled
    ∧ (handleSavePerson st name).1.isListening = st.isListening
    ∧ (handleSavePerson st name).1.transcript = st.transcript
    ∧ (handleSavePerson st name).1.isOnline = st.isOnline
    ∧ (handleSavePerson st name).1.showRememberModal = false
    ∧ (handleSavePerson st name).1.frameToRemember = none
    ∧ ((handleSavePerson st name).1.rememberedPeople = st.rememberedPeople
       ∨ ∃ p, (handleSavePerson st name).1.rememberedPeople
            = st.rememberedPeople ++ [p]) := by
  cases hf : st.frameToRemember with
  | none => simp [handleSavePerson, hf]
  | some f =>
      by_cases hn : jsTrim name = "" <;>
        simp [handleSavePerson, hf, hn]

end OptiRead
